import Mathlib

/-!
Shallow embedding of the timer/stopwatch registry implemented in
`src/index.ts` (the `TimerManager` object over a module-level
`Map<string, Timer>` named `timers`).

Modelling decisions, faithful to the JavaScript source:

* JavaScript numbers holding times and durations are integer milliseconds
  here (`Int`); `Date.now()` becomes an explicit `now : Int` parameter of
  each operation that reads the clock.
* The `Map` stores object references.  To model reference semantics (the
  `setInterval` callback and the unsubscribe closure capture the `Timer`
  object itself, not its id), the state keeps a `heap : List Timer` of all
  ever-allocated timer objects, addressed by index, and the map
  `table : List (String × Nat)` associates an id with a heap index.
  Removing an id from the map (`clear`) does not touch the heap entry:
  closures holding the reference still see (and may mutate) it, exactly as
  in JavaScript, where the object survives while reachable from a closure.
* `setInterval` returns a handle; the state records the set of currently
  armed recurring schedules in `intervals : List (Nat × Nat × String)`
  holding `(handle, timerRef, id)` — the data the interval callback closes
  over.  `clearInterval h` removes the schedule with handle `h`.  The body
  of the interval callback is `tickCallback`, invoked by the ambient
  scheduler once per elapsed 1000 ms for each armed schedule.
* Listener callbacks are compared by reference identity in a `Set`; they
  are modelled as abstract identities `Nat`.  A call `fn(v)` is recorded as
  an `Event.notify fn v` in the event list an operation returns, in call
  order; `Event.removed id` records the point at which `clear` deletes
  the id from the map inside the tick callback.
* `throw new Error(...)` is modelled by returning
  `some (TimerErr.notFound id)` / `Except.error (TimerErr.notFound id)`
  in the result of the operation; the state component returned is the
  state at the moment of the throw.
-/

inductive TimerType where
  | timer
  | stopwatch
deriving DecidableEq, Repr

structure Timer where
  startTs : Int
  elapsedTime : Int
  intervalId : Option Nat
  listeners : List Nat
  type : TimerType
  initialDuration : Option Int := none
deriving DecidableEq, Repr

inductive TimerErr where
  | notFound (id : String)
deriving DecidableEq, Repr

inductive Event where
  | notify (listener : Nat) (value : Int)
  | removed (id : String)
deriving DecidableEq, Repr

structure RegState where
  heap : List Timer
  table : List (String × Nat)
  intervals : List (Nat × Nat × String)
  nextHandle : Nat
deriving DecidableEq, Repr

namespace TimerManager

/-- The module-level `const timers = new Map<string, Timer>()`: empty at
process start. -/
def emptyRegistry : RegState :=
  { heap := [], table := [], intervals := [], nextHandle := 0 }

/-- Source `_computeValue(timer)`:
`sinceStart = timer.intervalId != null ? Date.now() - timer.startTs : 0`,
`total = timer.elapsedTime + sinceStart`; a STOPWATCH returns `total`, a
down-counting TIMER returns `remaining > 0 ? remaining : 0` with
`remaining = (timer.initialDuration ?? 0) - total`. -/
def computeValue (timer : Timer) (now : Int) : Int :=
  let sinceStart :=
    match timer.intervalId with
    | some _ => now - timer.startTs
    | none => 0
  let total := timer.elapsedTime + sinceStart
  match timer.type with
  | .stopwatch => total
  | .timer =>
      let remaining := timer.initialDuration.getD 0 - total
      if remaining > 0 then remaining else 0

/-- Source `createStopWatch(id, currentElapsedMs = 0)`: no-op when the id
exists, otherwise insert a fresh STOPWATCH object (allocated at the end of
the heap). -/
def createStopWatch (id : String) (currentElapsedMs : Int) (s : RegState) :
    RegState :=
  match s.table.lookup id with
  | some _ => s
  | none =>
      { s with
          heap := s.heap ++
            [{ startTs := 0, elapsedTime := currentElapsedMs,
               intervalId := none, listeners := [], type := .stopwatch }],
          table := s.table ++ [(id, s.heap.length)] }

/-- Source `createTimer(id, durationMs)`: no-op when the id exists,
otherwise insert a fresh down-counting TIMER object. -/
def createTimer (id : String) (durationMs : Int) (s : RegState) : RegState :=
  match s.table.lookup id with
  | some _ => s
  | none =>
      { s with
          heap := s.heap ++
            [{ startTs := 0, elapsedTime := 0, intervalId := none,
               listeners := [], type := .timer,
               initialDuration := some durationMs }],
          table := s.table ++ [(id, s.heap.length)] }

/-- Source `stop(id)`: when the id resolves to a timer whose `intervalId`
is non-null, add `Date.now() - startTs` to `elapsedTime`, cancel the
interval and null out `intervalId`; in every other case do nothing.
`startTs` is NOT reset.  No listener is called (the result type carries no
events). -/
def stop (id : String) (now : Int) (s : RegState) : RegState :=
  match s.table.lookup id with
  | none => s
  | some ref =>
      match s.heap[ref]? with
      | none => s
      | some timer =>
          match timer.intervalId with
          | none => s
          | some h =>
              let delta := now - timer.startTs
              let timer1 := { timer with
                                elapsedTime := timer.elapsedTime + delta,
                                intervalId := none }
              { s with
                  heap := s.heap.set ref timer1,
                  intervals := s.intervals.filter fun p => p.1 != h }

/-- Source `clear(id)`: `this.stop(id); timers.delete(id)`.  The heap
object survives (closures may still reference it); only the map entry
goes away. -/
def clear (id : String) (now : Int) (s : RegState) : RegState :=
  let s1 := stop id now s
  { s1 with table := s1.table.filter fun p => p.1 != id }

/-- Source `subscribe(id, fn)`: throw NotFound when the id is absent,
otherwise `timer.listeners.add(fn)` (set semantics: adding a present
reference changes nothing) and return the unsubscribe closure, which
captures the `timer` object — modelled by returning the heap reference
`ref`; the closure itself is `unsubscribe ref fn`. -/
def subscribe (id : String) (fn : Nat) (s : RegState) :
    RegState × Except TimerErr Nat :=
  match s.table.lookup id with
  | none => (s, Except.error (TimerErr.notFound id))
  | some ref =>
      match s.heap[ref]? with
      | none => (s, Except.ok ref)
      | some timer =>
          let timer1 := { timer with
              listeners :=
                if timer.listeners.contains fn then timer.listeners
                else timer.listeners ++ [fn] }
          ({ s with heap := s.heap.set ref timer1 }, Except.ok ref)

/-- The closure returned by `subscribe`:
`() => { timer.listeners.delete(fn); }`.  It acts on the captured object
reference, never on the map, and cannot throw. -/
def unsubscribe (ref : Nat) (fn : Nat) (s : RegState) : RegState :=
  match s.heap[ref]? with
  | none => s
  | some timer =>
      let timer1 := { timer with
                        listeners := timer.listeners.filter fun l => l != fn }
      { s with heap := s.heap.set ref timer1 }

/-- Source `getValue(id)`: throw NotFound when the id is absent, otherwise
return `_computeValue(timer)`; the state is never mutated. -/
def getValue (id : String) (now : Int) (s : RegState) :
    RegState × Except TimerErr Int :=
  match s.table.lookup id with
  | none => (s, Except.error (TimerErr.notFound id))
  | some ref =>
      match s.heap[ref]? with
      | none => (s, Except.error (TimerErr.notFound id))
      | some timer => (s, Except.ok (computeValue timer now))

/-- Source `start(id)`: throw NotFound when the id is absent; return at
once when `intervalId !== null` (already running); otherwise set
`startTs = Date.now()`, compute the initial value (at this point
`intervalId` is still null, so `sinceStart = 0`), call every listener with
it, then arm the recurring 1000 ms schedule with a fresh handle. -/
def start (id : String) (now : Int) (s : RegState) :
    RegState × List Event × Option TimerErr :=
  match s.table.lookup id with
  | none => (s, [], some (TimerErr.notFound id))
  | some ref =>
      match s.heap[ref]? with
      | none => (s, [], none)
      | some timer =>
          match timer.intervalId with
          | some _ => (s, [], none)
          | none =>
              let timer1 := { timer with startTs := now }
              let initialValue := computeValue timer1 now
              let events := timer1.listeners.map fun l =>
                Event.notify l initialValue
              let h := s.nextHandle
              let timer2 := { timer1 with intervalId := some h }
              ({ s with
                  heap := s.heap.set ref timer2,
                  intervals := s.intervals ++ [(h, ref, id)],
                  nextHandle := h + 1 },
               events, none)

/-- Body of the `setInterval` callback armed by `start`.  It closes over
the `timer` object (here `ref`) and `id`: compute the current value; when
the timer is down-counting and the value is ≤ 0, call every listener with
exactly `0`, then `this.clear(id)` and return; otherwise call every
listener with the value. -/
def tickCallback (ref : Nat) (id : String) (now : Int) (s : RegState) :
    RegState × List Event :=
  match s.heap[ref]? with
  | none => (s, [])
  | some timer =>
      let value := computeValue timer now
      if timer.type = TimerType.timer ∧ value ≤ 0 then
        let events := timer.listeners.map fun l => Event.notify l 0
        (clear id now s, events ++ [Event.removed id])
      else
        (s, timer.listeners.map fun l => Event.notify l value)

/-- Value computation as worded by the specification (spec.md §4.1,
"Value computation"): `sinceStart` = (current time − `startTimestamp`) if
running, else 0; `total` = `accumulatedElapsed` + `sinceStart`;
STOPWATCH value = `total`; COUNTDOWN value = max(0, `initialDuration` −
`total`).  Kept separate from `computeValue` so the two can be compared. -/
def specValue (timer : Timer) (now : Int) : Int :=
  let sinceStart := if timer.intervalId.isSome then now - timer.startTs else 0
  let total := timer.elapsedTime + sinceStart
  match timer.type with
  | .stopwatch => total
  | .timer => max 0 (timer.initialDuration.getD 0 - total)



theorem lookup_filter_self (l : List (String × Nat)) (id : String) :
    (l.filter fun p => p.1 != id).lookup id = none := by
  induction l with
  | nil => rfl
  | cons hd tl ih =>
      by_cases h : hd.1 = id
      · have hb : (hd.1 != id) = false := by
          simp [bne, h]
        rw [List.filter_cons, hb]
        exact ih
      · have hb : (hd.1 != id) = true := by
          simp [bne, h]
        have hb2 : (id == hd.1) = false := by
          simp [Ne.symm h]
        rw [List.filter_cons, hb]
        simp only [List.lookup, hb2]
        exact ih

theorem filter_eq_of_lookup_none (l : List (String × Nat)) (id : String)
    (h : l.lookup id = none) : (l.filter fun p => p.1 != id) = l := by
  induction l with
  | nil => rfl
  | cons hd tl ih =>
      by_cases hk : hd.1 = id
      · have hb2 : (id == hd.1) = true := by simp [hk]
        simp only [List.lookup, hb2] at h
        exact absurd h (by simp)
      · have hb : (hd.1 != id) = true := by simp [bne, hk]
        have hb2 : (id == hd.1) = false := by simp [Ne.symm hk]
        simp only [List.lookup, hb2] at h
        rw [List.filter_cons, hb]
        simp [ih h]

theorem lookup_append_of_none (l1 l2 : List (String × Nat)) (id : String)
    (h : l1.lookup id = none) : (l1 ++ l2).lookup id = l2.lookup id := by
  induction l1 with
  | nil => rfl
  | cons hd tl ih =>
      by_cases hk : hd.1 = id
      · have hb2 : (id == hd.1) = true := by simp [hk]
        simp only [List.lookup, hb2] at h
        exact absurd h (by simp)
      · have hb2 : (id == hd.1) = false := by simp [Ne.symm hk]
        simp only [List.lookup, hb2] at h
        rw [List.cons_append]
        simp only [List.lookup, hb2]
        exact ih h



theorem stop_table (id : String) (now : Int) (s : RegState) :
    (stop id now s).table = s.table := by
  unfold stop
  split
  · rfl
  split
  · rfl
  split
  · rfl
  · rfl

theorem stop_heap_length (id : String) (now : Int) (s : RegState) :
    (stop id now s).heap.length = s.heap.length := by
  unfold stop
  split
  · rfl
  split
  · rfl
  split
  · rfl
  · simp [List.length_set]

theorem clear_table_lookup (id : String) (now : Int) (s : RegState) :
    (clear id now s).table.lookup id = none := by
  unfold clear
  exact lookup_filter_self _ _

theorem computeValue_eq_specValue (tm : Timer) (now : Int) :
    computeValue tm now = specValue tm now := by
  unfold computeValue specValue
  cases hI : tm.intervalId <;> cases hT : tm.type <;>
    simp [Option.isSome] <;> omega

/-- Claim C1: for every entry and current time, the computed value follows
the spec formula (sinceStart if running else 0; total; STOPWATCH = total;
COUNTDOWN = max(0, initialDuration - total)), and getValue on a present id
returns exactly this value. -/
theorem C1_value_computation (tm : Timer) (now : Int) (s : RegState)
    (id : String) (ref : Nat)
    (h1 : s.table.lookup id = some ref) (h2 : s.heap[ref]? = some tm) :
    computeValue tm now = specValue tm now ∧
    getValue id now s = (s, Except.ok (specValue tm now)) := by
  refine ⟨computeValue_eq_specValue tm now, ?_⟩
  simp [getValue, h1, h2, computeValue_eq_specValue]

/-- Witness for C1 at a concrete registry holding one stopwatch. -/
theorem C1_value_computation_witness :
    (createStopWatch "a" 5 emptyRegistry).table.lookup "a" = some 0 ∧
    (createStopWatch "a" 5 emptyRegistry).heap[0]? =
      some (Timer.mk 0 5 none [] TimerType.stopwatch none) ∧
    (computeValue (Timer.mk 0 5 none [] TimerType.stopwatch none) 7 =
       specValue (Timer.mk 0 5 none [] TimerType.stopwatch none) 7 ∧
     getValue "a" 7 (createStopWatch "a" 5 emptyRegistry) =
       (createStopWatch "a" 5 emptyRegistry,
        Except.ok (specValue (Timer.mk 0 5 none [] TimerType.stopwatch none) 7))) :=
  ⟨by decide, by decide,
   C1_value_computation (Timer.mk 0 5 none [] TimerType.stopwatch none) 7
     (createStopWatch "a" 5 emptyRegistry) "a" 0 (by decide) (by decide)⟩

/-- Claim C3: on an absent id, start, subscribe and getValue fail with
NotFound while stop and clear return the state unchanged. -/
theorem C3_not_found (s : RegState) (id : String) (now : Int) (fn : Nat)
    (h : s.table.lookup id = none) :
    start id now s = (s, [], some (TimerErr.notFound id)) ∧
    subscribe id fn s = (s, Except.error (TimerErr.notFound id)) ∧
    getValue id now s = (s, Except.error (TimerErr.notFound id)) ∧
    stop id now s = s ∧
    clear id now s = s := by
  have hs : stop id now s = s := by simp [stop, h]
  refine ⟨by simp [start, h], by simp [subscribe, h], by simp [getValue, h],
          hs, ?_⟩
  unfold clear
  rw [hs]
  show ({ heap := s.heap, table := s.table.filter fun p => p.1 != id,
          intervals := s.intervals, nextHandle := s.nextHandle } : RegState) = s
  rw [filter_eq_of_lookup_none _ _ h]

/-- Witness for C3 on the empty registry. -/
theorem C3_not_found_witness :
    start "z" 3 emptyRegistry = (emptyRegistry, [], some (TimerErr.notFound "z")) ∧
    subscribe "z" 9 emptyRegistry = (emptyRegistry, Except.error (TimerErr.notFound "z")) ∧
    getValue "z" 3 emptyRegistry = (emptyRegistry, Except.error (TimerErr.notFound "z")) ∧
    stop "z" 3 emptyRegistry = emptyRegistry ∧
    clear "z" 3 emptyRegistry = emptyRegistry :=
  C3_not_found emptyRegistry "z" 3 9 (by decide)

/-- Claim C6: for a running entry and t1 ≤ t2, a COUNTDOWN value is
non-increasing and never negative, a STOPWATCH value is non-decreasing. -/
theorem C6_value_monotonicity (tm : Timer) (h : Nat) (t1 t2 : Int)
    (hrun : tm.intervalId = some h) (hle : t1 ≤ t2) :
    (tm.type = TimerType.timer →
       0 ≤ computeValue tm t1 ∧ 0 ≤ computeValue tm t2 ∧
       computeValue tm t2 ≤ computeValue tm t1) ∧
    (tm.type = TimerType.stopwatch →
       computeValue tm t1 ≤ computeValue tm t2) := by
  constructor
  · intro hT
    simp only [computeValue, hrun, hT]
    split_ifs <;> omega
  · intro hT
    simp only [computeValue, hrun, hT]
    omega

/-- Witness for C6 on a concrete running countdown. -/
theorem C6_value_monotonicity_witness :
    ((Timer.mk 100 0 (some 0) [] TimerType.timer (some 5000)).type = TimerType.timer →
       0 ≤ computeValue (Timer.mk 100 0 (some 0) [] TimerType.timer (some 5000)) 150 ∧
       0 ≤ computeValue (Timer.mk 100 0 (some 0) [] TimerType.timer (some 5000)) 250 ∧
       computeValue (Timer.mk 100 0 (some 0) [] TimerType.timer (some 5000)) 250 ≤
         computeValue (Timer.mk 100 0 (some 0) [] TimerType.timer (some 5000)) 150) ∧
    ((Timer.mk 100 0 (some 0) [] TimerType.timer (some 5000)).type = TimerType.stopwatch →
       computeValue (Timer.mk 100 0 (some 0) [] TimerType.timer (some 5000)) 150 ≤
         computeValue (Timer.mk 100 0 (some 0) [] TimerType.timer (some 5000)) 250) :=
  C6_value_monotonicity (Timer.mk 100 0 (some 0) [] TimerType.timer (some 5000))
    0 150 250 rfl (by decide)

/-- Claim C5: stopping a running entry adds now - startTs to
accumulatedElapsed, cancels the schedule and marks it not running; the
table keeps the id (not removed) and no listener is called (stop returns
no events by its very type). -/
theorem stop_running_eq (s : RegState) (id : String) (now : Int)
    (ref : Nat) (tm : Timer) (h : Nat)
    (h1 : s.table.lookup id = some ref) (h2 : s.heap[ref]? = some tm)
    (h3 : tm.intervalId = some h) :
    stop id now s =
      { heap := s.heap.set ref
          (Timer.mk tm.startTs (tm.elapsedTime + (now - tm.startTs)) none
             tm.listeners tm.type tm.initialDuration),
        table := s.table,
        intervals := s.intervals.filter fun p => p.1 != h,
        nextHandle := s.nextHandle } := by
  simp [stop, h1, h2, h3]

theorem C5_stop_running (s : RegState) (id : String) (now : Int)
    (ref : Nat) (tm : Timer) (h : Nat)
    (h1 : s.table.lookup id = some ref) (h2 : s.heap[ref]? = some tm)
    (h3 : tm.intervalId = some h) :
    stop id now s =
      { heap := s.heap.set ref
          (Timer.mk tm.startTs (tm.elapsedTime + (now - tm.startTs)) none
             tm.listeners tm.type tm.initialDuration),
        table := s.table,
        intervals := s.intervals.filter fun p => p.1 != h,
        nextHandle := s.nextHandle } ∧
    (stop id now s).table.lookup id = some ref := by
  have he := stop_running_eq s id now ref tm h h1 h2 h3
  exact ⟨he, by rw [he]; exact h1⟩

/-- Witness for C5 on a one-entry registry with a running stopwatch. -/
theorem C5_stop_running_witness :
    stop "a" 250 (start "a" 100 (createStopWatch "a" 0 emptyRegistry)).1 =
      { heap := ((start "a" 100 (createStopWatch "a" 0 emptyRegistry)).1).heap.set 0
          (Timer.mk 100 (0 + (250 - 100)) none [] TimerType.stopwatch none),
        table := ((start "a" 100 (createStopWatch "a" 0 emptyRegistry)).1).table,
        intervals := ((start "a" 100 (createStopWatch "a" 0 emptyRegistry)).1).intervals.filter
          fun p => p.1 != 0,
        nextHandle := ((start "a" 100 (createStopWatch "a" 0 emptyRegistry)).1).nextHandle } ∧
    (stop "a" 250 (start "a" 100 (createStopWatch "a" 0 emptyRegistry)).1).table.lookup "a" =
      some 0 :=
  C5_stop_running (start "a" 100 (createStopWatch "a" 0 emptyRegistry)).1 "a" 250
    0 (Timer.mk 100 0 (some 0) [] TimerType.stopwatch none) 0
    (by decide) (by decide) rfl

/-- Claim C4: for every entry that is already running — in any reachable
state, however it was produced — calling start again is a no-op: the
state is returned untouched (so startTs is not reset, the heap and the
armed schedules are unchanged and no second recurring schedule is armed)
and no listener is notified, so listeners keep receiving exactly one
notification per real tick. -/
theorem C4_idempotent_start (s : RegState) (id : String) (t : Int)
    (ref h : Nat) (tm : Timer)
    (h1 : s.table.lookup id = some ref) (h2 : s.heap[ref]? = some tm)
    (h3 : tm.intervalId = some h) :
    start id t s = (s, [], none) := by
  simp [start, h1, h2, h3]

/-- Witness for C4 on a two-entry registry: stopwatch a is started, then
timer b is created and started, then start of a is repeated — a no-op. -/
theorem C4_idempotent_start_witness :
    start "a" 300
        (start "b" 200 (createTimer "b" 500
          (start "a" 100 (createStopWatch "a" 0 emptyRegistry)).1)).1 =
      ((start "b" 200 (createTimer "b" 500
          (start "a" 100 (createStopWatch "a" 0 emptyRegistry)).1)).1,
       [], none) :=
  C4_idempotent_start
    (start "b" 200 (createTimer "b" 500
      (start "a" 100 (createStopWatch "a" 0 emptyRegistry)).1)).1
    "a" 300 0 0 (Timer.mk 100 0 (some 0) [] TimerType.stopwatch none)
    (by decide) (by decide) rfl

/-- Claim C8: an operation that raises NotFound leaves the registry state
exactly as it was: start, subscribe and getValue return the unmutated
input state (and no events) whenever they return an error; getValue never
mutates at all. -/
theorem C8_no_mutation_on_error (s : RegState) (id : String) (now : Int)
    (fn : Nat) :
    (∀ e, (start id now s).2.2 = some e →
       start id now s = (s, [], some e) ∧ e = TimerErr.notFound id) ∧
    (∀ e, (subscribe id fn s).2 = Except.error e →
       subscribe id fn s = (s, Except.error e) ∧ e = TimerErr.notFound id) ∧
    (getValue id now s).1 = s := by
  refine ⟨?_, ?_, ?_⟩
  · intro e he
    cases hl : s.table.lookup id with
    | none =>
        simp [start, hl] at he ⊢
        simp [he]
    | some ref =>
        cases hg : s.heap[ref]? with
        | none => simp [start, hl, hg] at he
        | some tm =>
            cases hI : tm.intervalId with
            | none => simp [start, hl, hg, hI] at he
            | some hh => simp [start, hl, hg, hI] at he
  · intro e he
    cases hl : s.table.lookup id with
    | none =>
        simp [subscribe, hl] at he ⊢
        simp [he]
    | some ref =>
        cases hg : s.heap[ref]? with
        | none => simp [subscribe, hl, hg] at he
        | some tm => simp [subscribe, hl, hg] at he
  · cases hl : s.table.lookup id with
    | none => simp [getValue, hl]
    | some ref =>
        cases hg : s.heap[ref]? with
        | none => simp [getValue, hl, hg]
        | some tm => simp [getValue, hl, hg]

/-- Witness for C8 on the empty registry, where all three lookups fail. -/
theorem C8_no_mutation_on_error_witness :
    (∀ e, (start "z" 4 emptyRegistry).2.2 = some e →
       start "z" 4 emptyRegistry = (emptyRegistry, [], some e) ∧
       e = TimerErr.notFound "z") ∧
    (∀ e, (subscribe "z" 6 emptyRegistry).2 = Except.error e →
       subscribe "z" 6 emptyRegistry = (emptyRegistry, Except.error e) ∧
       e = TimerErr.notFound "z") ∧
    (getValue "z" 4 emptyRegistry).1 = emptyRegistry :=
  C8_no_mutation_on_error emptyRegistry "z" 4 6

/-- Claim C2: a recurring tick of a running COUNTDOWN entry whose computed
value is ≤ 0 notifies every subscribed listener with exactly 0, then (and
only then) removes the entry via clear — the event list is the listener
notifications followed by the removal, with nothing after it — and the
post-state no longer contains the id, its schedule cancelled. -/
theorem C2_terminal_tick (s : RegState) (id : String) (now : Int)
    (ref : Nat) (tm : Timer) (hh : Nat)
    (h1 : s.table.lookup id = some ref) (h2 : s.heap[ref]? = some tm)
    (hty : tm.type = TimerType.timer) (h3 : tm.intervalId = some hh)
    (hz : computeValue tm now ≤ 0) :
    (tickCallback ref id now s).2 =
      (tm.listeners.map fun l => Event.notify l 0) ++ [Event.removed id] ∧
    (tickCallback ref id now s).1 = clear id now s ∧
    ((tickCallback ref id now s).1).table.lookup id = none ∧
    (∀ p, p ∈ ((tickCallback ref id now s).1).intervals → p.1 ≠ hh) := by
  have htick : tickCallback ref id now s =
      (clear id now s,
       (tm.listeners.map fun l => Event.notify l 0) ++ [Event.removed id]) := by
    unfold tickCallback
    rw [h2]
    simp only []
    rw [if_pos ⟨hty, hz⟩]
  have hclear : (clear id now s).intervals =
      s.intervals.filter fun p => p.1 != hh := by
    unfold clear
    rw [stop_running_eq s id now ref tm hh h1 h2 h3]
  refine ⟨by rw [htick], by rw [htick], ?_, ?_⟩
  · rw [htick]
    exact clear_table_lookup id now s
  · intro p hp
    rw [htick] at hp
    simp only [hclear] at hp
    have hb := (List.mem_filter.mp hp).2
    simp only [bne_iff_ne] at hb
    exact hb

/-- Witness for C2: a countdown of 400 ms started at t=100 and ticked at
t=1100 has value 0, notifies listener 7 with 0 and is then removed. -/
theorem C2_terminal_tick_witness :
    (tickCallback 0 "b" 1100
        (start "b" 100 (subscribe "b" 7 (createTimer "b" 400 emptyRegistry)).1).1).2 =
      ([7].map fun l => Event.notify l 0) ++ [Event.removed "b"] ∧
    (tickCallback 0 "b" 1100
        (start "b" 100 (subscribe "b" 7 (createTimer "b" 400 emptyRegistry)).1).1).1 =
      clear "b" 1100
        (start "b" 100 (subscribe "b" 7 (createTimer "b" 400 emptyRegistry)).1).1 ∧
    ((tickCallback 0 "b" 1100
        (start "b" 100 (subscribe "b" 7 (createTimer "b" 400 emptyRegistry)).1).1).1).table.lookup
      "b" = none ∧
    (∀ p, p ∈ ((tickCallback 0 "b" 1100
        (start "b" 100 (subscribe "b" 7 (createTimer "b" 400 emptyRegistry)).1).1).1).intervals →
      p.1 ≠ 0) :=
  C2_terminal_tick
    (start "b" 100 (subscribe "b" 7 (createTimer "b" 400 emptyRegistry)).1).1
    "b" 1100 0 (Timer.mk 100 0 (some 0) [7] TimerType.timer (some 400)) 0
    (by decide) (by decide) rfl rfl (by decide)

/-- Counterexample to claim C9 as stated: create a stopwatch, start it at
t=100, stop it at t=250.  The entry is present and not running, yet its
startTimestamp is 100, not 0 — stop does not reset startTs. -/
theorem C9_counterexample :
    ((stop "a" 250 (start "a" 100 (createStopWatch "a" 0 emptyRegistry)).1).heap[0]?).map
        (fun tm => (tm.intervalId, tm.startTs)) = some (none, 100) ∧
    (stop "a" 250
        (start "a" 100 (createStopWatch "a" 0 emptyRegistry)).1).table.lookup "a" =
      some 0 ∧
    (100 : Int) ≠ 0 := by
  exact ⟨by decide, by decide, by decide⟩

/-- Claim C9 as amended: startTimestamp is 0 at creation, but stop does not
reset it — after a stop the entry is not running and startTimestamp retains
the time of the most recent start; while not running, startTimestamp has no
effect on the computed value. -/
theorem C9_startTs_amended (s : RegState) (id : String) (now x : Int)
    (ref hh : Nat) (tm : Timer)
    (h1 : s.table.lookup id = some ref) (h2 : s.heap[ref]? = some tm)
    (h3 : tm.intervalId = some hh) :
    ((stop id now s).heap[ref]?).map Timer.startTs = some tm.startTs ∧
    ((stop id now s).heap[ref]?).map Timer.intervalId = some none ∧
    (∀ tm2 : Timer, tm2.intervalId = none →
       computeValue (Timer.mk x tm2.elapsedTime none tm2.listeners tm2.type
           tm2.initialDuration) now = computeValue tm2 now) ∧
    (∀ sf : RegState, ∀ idf : String, ∀ e : Int, sf.table.lookup idf = none →
       ((createStopWatch idf e sf).heap[sf.heap.length]?).map Timer.startTs = some 0 ∧
       ((createTimer idf e sf).heap[sf.heap.length]?).map Timer.startTs = some 0) := by
  have hlt : ref < s.heap.length := by
    by_contra hge
    rw [List.getElem?_eq_none (Nat.le_of_not_lt hge)] at h2
    exact Option.noConfusion h2
  have hstop := stop_running_eq s id now ref tm hh h1 h2 h3
  refine ⟨?_, ?_, ?_, ?_⟩
  · rw [hstop]
    simp [List.getElem?_set_eq_of_lt _ hlt]
  · rw [hstop]
    simp [List.getElem?_set_eq_of_lt _ hlt]
  · intro tm2 hI
    simp [computeValue, hI]
  · intro sf idf e hf
    constructor
    · simp [createStopWatch, hf, List.getElem?_concat_length]
    · simp [createTimer, hf, List.getElem?_concat_length]

/-- Witness for the amended C9 on the started-then-stopped stopwatch. -/
theorem C9_startTs_amended_witness :
    (((stop "a" 250 (start "a" 100 (createStopWatch "a" 0 emptyRegistry)).1).heap[0]?).map
        Timer.startTs = some 100 ∧
     ((stop "a" 250 (start "a" 100 (createStopWatch "a" 0 emptyRegistry)).1).heap[0]?).map
        Timer.intervalId = some none ∧
     (∀ tm2 : Timer, tm2.intervalId = none →
        computeValue (Timer.mk 9 tm2.elapsedTime none tm2.listeners tm2.type
            tm2.initialDuration) 250 = computeValue tm2 250) ∧
     (∀ sf : RegState, ∀ idf : String, ∀ e : Int, sf.table.lookup idf = none →
        ((createStopWatch idf e sf).heap[sf.heap.length]?).map Timer.startTs = some 0 ∧
        ((createTimer idf e sf).heap[sf.heap.length]?).map Timer.startTs = some 0)) :=
  C9_startTs_amended (start "a" 100 (createStopWatch "a" 0 emptyRegistry)).1
    "a" 250 9 0 0 (Timer.mk 100 0 (some 0) [] TimerType.stopwatch none)
    (by decide) (by decide) rfl

theorem unsubscribe_table (ref fn : Nat) (s : RegState) :
    (unsubscribe ref fn s).table = s.table := by
  unfold unsubscribe
  split
  · rfl
  · rfl

theorem unsubscribe_intervals (ref fn : Nat) (s : RegState) :
    (unsubscribe ref fn s).intervals = s.intervals := by
  unfold unsubscribe
  split
  · rfl
  · rfl

theorem unsubscribe_heap_ne (ref fn r : Nat) (s : RegState) (hne : r ≠ ref) :
    (unsubscribe ref fn s).heap[r]? = s.heap[r]? := by
  unfold unsubscribe
  split
  · rfl
  · exact List.getElem?_set_ne (Ne.symm hne)

theorem clear_heap_length (id : String) (now : Int) (s : RegState) :
    (clear id now s).heap.length = s.heap.length := by
  unfold clear
  exact stop_heap_length id now s

/-- Claim C7: subscribe returns a handle capturing the entry reference; the
handle removes exactly that callback from that entry, never touching the
table, the schedules or any other heap entry; after clear-and-recreate
under the same id the handle still cannot affect the fresh entry, because
the fresh entry lives at a different reference. -/
theorem C7_unsubscribe_safety (s : RegState) (id : String) (fn : Nat)
    (e t : Int) (ref : Nat) (tm : Timer)
    (h1 : s.table.lookup id = some ref) (h2 : s.heap[ref]? = some tm) :
    (subscribe id fn s).2 = Except.ok ref ∧
    (∀ s2 tm2, s2.heap[ref]? = some tm2 →
       (unsubscribe ref fn s2).heap[ref]? =
         some (Timer.mk tm2.startTs tm2.elapsedTime tm2.intervalId
            (tm2.listeners.filter fun l => l != fn) tm2.type tm2.initialDuration) ∧
       (unsubscribe ref fn s2).table = s2.table ∧
       (unsubscribe ref fn s2).intervals = s2.intervals ∧
       (∀ r, r ≠ ref → (unsubscribe ref fn s2).heap[r]? = s2.heap[r]?)) ∧
    (createStopWatch id e (clear id t (subscribe id fn s).1)).table.lookup id =
      some s.heap.length ∧
    ref ≠ s.heap.length ∧
    (unsubscribe ref fn (createStopWatch id e (clear id t (subscribe id fn s).1))).table =
      (createStopWatch id e (clear id t (subscribe id fn s).1)).table ∧
    (unsubscribe ref fn
        (createStopWatch id e (clear id t (subscribe id fn s).1))).heap[s.heap.length]? =
      (createStopWatch id e (clear id t (subscribe id fn s).1)).heap[s.heap.length]? := by
  have hlt : ref < s.heap.length := by
    by_contra hge
    rw [List.getElem?_eq_none (Nat.le_of_not_lt hge)] at h2
    exact Option.noConfusion h2
  have hsub2 : (subscribe id fn s).2 = Except.ok ref := by
    simp [subscribe, h1, h2]
  have hsublen : ((subscribe id fn s).1).heap.length = s.heap.length := by
    simp [subscribe, h1, h2, List.length_set]
  have hclearlook : (clear id t (subscribe id fn s).1).table.lookup id = none :=
    clear_table_lookup id t _
  have hclearlen : (clear id t (subscribe id fn s).1).heap.length = s.heap.length := by
    rw [clear_heap_length, hsublen]
  have hnewlook :
      (createStopWatch id e (clear id t (subscribe id fn s).1)).table.lookup id =
        some s.heap.length := by
    unfold createStopWatch
    rw [hclearlook]
    simp only []
    rw [lookup_append_of_none _ _ _ hclearlook, hclearlen]
    simp [List.lookup]
  refine ⟨hsub2, ?_, hnewlook, Nat.ne_of_lt hlt, unsubscribe_table _ _ _, ?_⟩
  · intro s2 tm2 hget
    have hlt2 : ref < s2.heap.length := by
      by_contra hge
      rw [List.getElem?_eq_none (Nat.le_of_not_lt hge)] at hget
      exact Option.noConfusion hget
    refine ⟨?_, unsubscribe_table _ _ _, unsubscribe_intervals _ _ _, ?_⟩
    · unfold unsubscribe
      rw [hget]
      simp only []
      rw [List.getElem?_set_eq_of_lt _ hlt2]
    · intro r hr
      exact unsubscribe_heap_ne ref fn r s2 hr
  · exact unsubscribe_heap_ne ref fn s.heap.length _ (Ne.symm (Nat.ne_of_lt hlt))

/-- Witness for C7 on a one-entry registry. -/
theorem C7_unsubscribe_safety_witness :
    (subscribe "a" 7 (createStopWatch "a" 0 emptyRegistry)).2 = Except.ok 0 ∧
    (∀ s2 tm2, s2.heap[0]? = some tm2 →
       (unsubscribe 0 7 s2).heap[0]? =
         some (Timer.mk tm2.startTs tm2.elapsedTime tm2.intervalId
            (tm2.listeners.filter fun l => l != 7) tm2.type tm2.initialDuration) ∧
       (unsubscribe 0 7 s2).table = s2.table ∧
       (unsubscribe 0 7 s2).intervals = s2.intervals ∧
       (∀ r, r ≠ 0 → (unsubscribe 0 7 s2).heap[r]? = s2.heap[r]?)) ∧
    (createStopWatch "a" 3 (clear "a" 9
        (subscribe "a" 7 (createStopWatch "a" 0 emptyRegistry)).1)).table.lookup "a" =
      some (createStopWatch "a" 0 emptyRegistry).heap.length ∧
    0 ≠ (createStopWatch "a" 0 emptyRegistry).heap.length ∧
    (unsubscribe 0 7 (createStopWatch "a" 3 (clear "a" 9
        (subscribe "a" 7 (createStopWatch "a" 0 emptyRegistry)).1))).table =
      (createStopWatch "a" 3 (clear "a" 9
        (subscribe "a" 7 (createStopWatch "a" 0 emptyRegistry)).1)).table ∧
    (unsubscribe 0 7 (createStopWatch "a" 3 (clear "a" 9
        (subscribe "a" 7
          (createStopWatch "a" 0 emptyRegistry)).1))).heap[(createStopWatch "a" 0
            emptyRegistry).heap.length]? =
      (createStopWatch "a" 3 (clear "a" 9
        (subscribe "a" 7
          (createStopWatch "a" 0 emptyRegistry)).1)).heap[(createStopWatch "a" 0
            emptyRegistry).heap.length]? :=
  C7_unsubscribe_safety (createStopWatch "a" 0 emptyRegistry) "a" 7 3 9 0
    (Timer.mk 0 0 none [] TimerType.stopwatch none) (by decide) (by decide)

/-- Claim C10: for every COUNTDOWN entry whose computed value is already
≤ 0 at the moment start is called — equivalently 0, the floor; whether its
duration was ≤ 0 from the outset or the elapsed time accumulated over
earlier run/stop cycles has consumed it — start notifies every subscribed
listener with the value 0 but does NOT remove the entry: the
zero-check-and-clear logic runs only inside the recurring tick callback,
so the id stays present, getValue succeeds with value 0, and the first
recurring tick then notifies 0 and removes it. -/
theorem C10_expired_countdown_start (s : RegState) (id : String)
    (now t1 t2 : Int) (ref : Nat) (tm : Timer)
    (h1 : s.table.lookup id = some ref) (h2 : s.heap[ref]? = some tm)
    (hty : tm.type = TimerType.timer) (h3 : tm.intervalId = none)
    (hz : computeValue tm now ≤ 0)
    (ht1 : now ≤ t1) (ht2 : now ≤ t2) :
    (start id now s).2.2 = none ∧
    (start id now s).2.1 = tm.listeners.map (fun l => Event.notify l 0) ∧
    ((start id now s).1).table = s.table ∧
    ((start id now s).1).table.lookup id = some ref ∧
    (getValue id t1 (start id now s).1).2 = Except.ok 0 ∧
    (tickCallback ref id t2 (start id now s).1).2 =
      (tm.listeners.map fun l => Event.notify l 0) ++ [Event.removed id] ∧
    ((tickCallback ref id t2 (start id now s).1).1).table.lookup id = none := by
  have hlt : ref < s.heap.length := by
    by_contra hge
    rw [List.getElem?_eq_none (Nat.le_of_not_lt hge)] at h2
    exact Option.noConfusion h2
  have hrem : tm.initialDuration.getD 0 - tm.elapsedTime ≤ 0 := by
    simp only [computeValue, h3, hty] at hz
    split_ifs at hz with hc <;> omega
  have hval : computeValue (Timer.mk now tm.elapsedTime none tm.listeners
      tm.type tm.initialDuration) now = 0 := by
    simp only [computeValue, hty]
    split_ifs with hc <;> omega
  have hstart : start id now s =
      (RegState.mk
        (s.heap.set ref (Timer.mk now tm.elapsedTime (some s.nextHandle)
          tm.listeners tm.type tm.initialDuration))
        s.table (s.intervals ++ [(s.nextHandle, ref, id)]) (s.nextHandle + 1),
       tm.listeners.map fun l => Event.notify l 0, none) := by
    simp [start, h1, h2, h3, hval]
  have hget2 : ((start id now s).1).heap[ref]? =
      some (Timer.mk now tm.elapsedTime (some s.nextHandle) tm.listeners
        tm.type tm.initialDuration) := by
    rw [hstart]
    exact List.getElem?_set_eq_of_lt _ hlt
  have hlook2 : ((start id now s).1).table.lookup id = some ref := by
    rw [hstart]
    exact h1
  have hvrun : ∀ t : Int, now ≤ t →
      computeValue (Timer.mk now tm.elapsedTime (some s.nextHandle)
        tm.listeners tm.type tm.initialDuration) t = 0 := by
    intro t ht
    simp only [computeValue, hty]
    split_ifs with hc <;> omega
  have htickeq : tickCallback ref id t2 (start id now s).1 =
      (clear id t2 (start id now s).1,
       (tm.listeners.map fun l => Event.notify l 0) ++ [Event.removed id]) := by
    unfold tickCallback
    rw [hget2]
    simp only []
    rw [if_pos ⟨hty, le_of_eq (hvrun t2 ht2)⟩]
  refine ⟨by rw [hstart], by rw [hstart], by rw [hstart], hlook2, ?_,
          by rw [htickeq], ?_⟩
  · simp [getValue, hlook2, hget2, hvrun t1 ht1]
  · rw [htickeq]
    exact clear_table_lookup id t2 _

/-- Witness for C10 on a countdown expired through accumulated elapsed
time: timer b has duration 500, runs from t=100 to t=700 (600 ms
accumulated), is stopped, and is started again at t=1000 with value
already 0: listener 7 is notified with 0, the entry stays present
(getValue at t=1050 returns 0) and the tick at t=2000 removes it. -/
theorem C10_expired_countdown_start_witness :
    (start "b" 1000 (stop "b" 700
        (start "b" 100 (subscribe "b" 7
          (createTimer "b" 500 emptyRegistry)).1).1)).2.2 = none ∧
    (start "b" 1000 (stop "b" 700
        (start "b" 100 (subscribe "b" 7
          (createTimer "b" 500 emptyRegistry)).1).1)).2.1 =
      List.map (fun l => Event.notify l 0) [7] ∧
    ((start "b" 1000 (stop "b" 700
        (start "b" 100 (subscribe "b" 7
          (createTimer "b" 500 emptyRegistry)).1).1)).1).table =
      (stop "b" 700 (start "b" 100 (subscribe "b" 7
        (createTimer "b" 500 emptyRegistry)).1).1).table ∧
    ((start "b" 1000 (stop "b" 700
        (start "b" 100 (subscribe "b" 7
          (createTimer "b" 500 emptyRegistry)).1).1)).1).table.lookup "b" =
      some 0 ∧
    (getValue "b" 1050 (start "b" 1000 (stop "b" 700
        (start "b" 100 (subscribe "b" 7
          (createTimer "b" 500 emptyRegistry)).1).1)).1).2 = Except.ok 0 ∧
    (tickCallback 0 "b" 2000 (start "b" 1000 (stop "b" 700
        (start "b" 100 (subscribe "b" 7
          (createTimer "b" 500 emptyRegistry)).1).1)).1).2 =
      List.map (fun l => Event.notify l 0) [7] ++ [Event.removed "b"] ∧
    ((tickCallback 0 "b" 2000 (start "b" 1000 (stop "b" 700
        (start "b" 100 (subscribe "b" 7
          (createTimer "b" 500 emptyRegistry)).1).1)).1).1).table.lookup "b" =
      none :=
  C10_expired_countdown_start
    (stop "b" 700 (start "b" 100 (subscribe "b" 7
      (createTimer "b" 500 emptyRegistry)).1).1)
    "b" 1000 1050 2000 0
    (Timer.mk 100 600 none [7] TimerType.timer (some 500))
    (by decide) (by decide) rfl rfl (by decide) (by decide) (by decide)

end TimerManager






